import Mathlib

/-!
# Verification of the open-scrapers core against its specification

Shallow embedding of the core logic of the `openpuc_scrapers` package:
the `save_json` serialization helper and the `process_cases` pipeline
(`models/generic_scraper.py`), the NY filing deduplication and docket
merge helpers (`scrapers/ny.py`), the dummy scraper (`scrapers/dummy.py`)
and the attachment text-quality ranking
(`pipelines/raw_attachment_handling.py`).

Python values that flow through dynamically-typed code are embedded as the
inductive `Py`; Python exceptions are embedded as `Except PyErr`.
-/

/-- Embedded Python exceptions raised by the code under verification. -/
inductive PyErr where
  /-- `raise Exception(msg)` -/
  | exception (msg : String)
  /-- `AttributeError` from looking up attribute `name` that does not exist -/
  | attributeError (name : String)
  /-- `ValueError(msg)` (e.g. `max()` on an empty sequence, `strptime` mismatch) -/
  | valueError (msg : String)
  /-- `TypeError(msg)` (e.g. `json.dumps` on an unsupported object) -/
  | typeError (msg : String)
  /-- `KeyError` from a dict subscript with a missing key -/
  | keyError (key : String)
  /-- pydantic `ValidationError` from constructing a model with bad data -/
  | validationError (msg : String)
  deriving DecidableEq, Repr

/-- A calendar date, as `datetime.date`: compared chronologically
(lexicographically on year, month, day). -/
structure Date where
  year : Nat
  month : Nat
  day : Nat
  deriving DecidableEq, Repr

/-- Python `a < b` on `datetime.date`. -/
def Date.ltb (a b : Date) : Bool :=
  decide (a.year < b.year ∨ (a.year = b.year ∧
    (a.month < b.month ∨ (a.month = b.month ∧ a.day < b.day))))

/-- Python `a <= b` on `datetime.date`. -/
def Date.leb (a b : Date) : Bool :=
  decide (a.year < b.year ∨ (a.year = b.year ∧
    (a.month < b.month ∨ (a.month = b.month ∧ a.day ≤ b.day))))

/-- Embedding of the run-time Python values handled by the dynamically
typed parts of the code (`save_json`'s `data: Any`, the JSON-serializable
intermediates).  A pydantic `BaseModel` instance is embedded as `.model`
carrying its field mapping (its `model_dump()`), kept distinct from a plain
`dict` because `isinstance` distinguishes them. -/
inductive Py where
  | none_
  | bool_ (b : Bool)
  | int (n : Int)
  | str (s : String)
  /-- a `datetime.date` object (pydantic `model_dump()` keeps dates as objects) -/
  | date (d : Date)
  | list (items : List Py)
  | dict (entries : List (String × Py))
  /-- a pydantic `BaseModel` instance with its field mapping -/
  | model (fields : List (String × Py))
  deriving Repr

/-- `isinstance(data, dict)` -/
def Py.isDict : Py → Bool
  | .dict _ => true
  | _ => false

/-- `isinstance(data, BaseModel)` -/
def Py.isModel : Py → Bool
  | .model _ => true
  | _ => false

/-- `isinstance(data, list)` -/
def Py.isList : Py → Bool
  | .list _ => true
  | _ => false

/-! ## `datetime.strptime(s, "%m/%d/%Y")` -/

/-- Is `y` a leap year (Gregorian rule), as `datetime` uses. -/
def isLeapYear (y : Nat) : Bool :=
  (y % 4 == 0 && y % 100 != 0) || y % 400 == 0

/-- Number of days in month `m` of year `y` (0 for an invalid month). -/
def daysInMonth (y m : Nat) : Nat :=
  if m = 2 then (if isLeapYear y then 29 else 28)
  else if m = 1 ∨ m = 3 ∨ m = 5 ∨ m = 7 ∨ m = 8 ∨ m = 10 ∨ m = 12 then 31
  else if m = 4 ∨ m = 6 ∨ m = 9 ∨ m = 11 then 30
  else 0

/-- Split a character list on `/` separators (an empty input gives one
empty group, like `"".split`). -/
def splitOnSlash : List Char → List (List Char)
  | [] => [[]]
  | c :: rest =>
    match splitOnSlash rest with
    | [] => [[]]
    | g :: gs => if c = '/' then [] :: g :: gs else (c :: g) :: gs

/-- Decimal value of a digit character list. -/
def digitsToNat (cs : List Char) : Nat :=
  cs.foldl (fun acc c => acc * 10 + (c.toNat - 48)) 0

/-- A numeric strptime field of 1 to `maxLen` digit characters. -/
def parseDigitField (maxLen : Nat) (cs : List Char) : Option Nat :=
  if 1 ≤ cs.length ∧ cs.length ≤ maxLen ∧ cs.all Char.isDigit then
    some (digitsToNat cs)
  else none

/-- A `%Y` strptime field: exactly 4 digit characters (CPython's `%Y`
pattern under this format is four digits). -/
def parseYearField (cs : List Char) : Option Nat :=
  if cs.length = 4 ∧ cs.all Char.isDigit then some (digitsToNat cs) else none

/-- `datetime.strptime(s, "%m/%d/%Y")`: month/day/year separated by `/`
(`%m` and `%d` take 1-2 digits, `%Y` exactly 4), validated against the
calendar with year at least `datetime.MINYEAR = 1`; any mismatch raises
`ValueError`. -/
def strptime_mdY (s : String) : Except PyErr Date :=
  match splitOnSlash s.data with
  | [ms, ds, ys] =>
    match parseDigitField 2 ms, parseDigitField 2 ds, parseYearField ys with
    | some m, some d, some y =>
      if 1 ≤ y ∧ 1 ≤ m ∧ m ≤ 12 ∧ 1 ≤ d ∧ d ≤ daysInMonth y m then
        .ok { year := y, month := m, day := d }
      else .error (.valueError ("time data " ++ s ++ " does not match format"))
    | _, _, _ => .error (.valueError ("time data " ++ s ++ " does not match format"))
  | _ => .error (.valueError ("time data " ++ s ++ " does not match format"))

/-! ## `json.dumps` and `save_json` (`models/generic_scraper.py`, lines 122-140) -/

/-- JSON string-escape of `"` and backslash over a character list (other
characters pass through; the inputs in this development contain none that
need more). -/
def jsonEscapeList : List Char → List Char
  | [] => []
  | c :: cs =>
    (if c = '\x22' then ['\\', '\x22']
     else if c = '\\' then ['\\', '\\'] else [c]) ++ jsonEscapeList cs

/-- JSON string-escape of a string's contents. -/
def jsonEscape (s : String) : String := { data := jsonEscapeList s.data }

/-- Comma-join. -/
def joinComma (parts : List String) : String :=
  match parts with
  | [] => ""
  | p :: ps => ps.foldl (fun acc q => acc ++ ", " ++ q) p

/-- `json.dumps` on an embedded Python value (whitespace/indentation is
abstracted away).  `date` objects and `BaseModel` instances are not JSON
serializable and raise `TypeError`; the fuel bound models CPython's
recursion limit, far beyond any value in this development. -/
def jsonDumpsFuel : Nat → Py → Except PyErr String
  | 0, _ => .error (.exception "maximum recursion depth exceeded")
  | _ + 1, .none_ => .ok "null"
  | _ + 1, .bool_ b => .ok (if b then "true" else "false")
  | _ + 1, .int n => .ok (toString n)
  | _ + 1, .str s => .ok ("\x22" ++ jsonEscape s ++ "\x22")
  | _ + 1, .date _ => .error (.typeError "Object of type date is not JSON serializable")
  | _ + 1, .model _ => .error (.typeError "Object of type BaseModel is not JSON serializable")
  | n + 1, .list items => do
    let parts ← items.mapM (jsonDumpsFuel n)
    return "[" ++ joinComma parts ++ "]"
  | n + 1, .dict entries => do
    let parts ← entries.mapM (fun kv => do
      let v ← jsonDumpsFuel n kv.2
      return "\x22" ++ jsonEscape kv.1 ++ "\x22: " ++ v)
    return "\x7b" ++ joinComma parts ++ "\x7d"

/-- `json.dumps(json_data, indent=2)` (CPython's default recursion limit
of 1000 frames supplies the fuel). -/
def jsonDumps (v : Py) : Except PyErr String := jsonDumpsFuel 1000 v

/-- `item.model_dump()` inside `save_json`'s list comprehension: defined on
`BaseModel` instances, `AttributeError` on anything else. -/
def modelDumpItem : Py → Except PyErr Py
  | .model fields => .ok (.dict fields)
  | _ => .error (.attributeError "model_dump")

/-- `data.model_dump()` where `data` is known to be a `BaseModel`
(the second `isinstance` branch of `save_json`); identity elsewhere. -/
def modelDumpSelf : Py → Py
  | .model fields => .dict fields
  | v => v

/-- `save_json(path, data)` (`models/generic_scraper.py`, lines 130-140).
The three `isinstance` branches are sequential independent `if`s and only
the last has an `else`, so the assignments made by the first two branches
are dead: if `data` is not a `list`, the `else` raises regardless.
Instead of performing the final `save_to_disk`, the write is returned as a
`(path, serialized content)` pair for the caller's write log. -/
def save_json (path : String) (data : Py) : Except PyErr (String × String) := do
  -- if isinstance(data, dict): json_data = data
  let json_data : Option Py := if data.isDict then some data else none
  -- if isinstance(data, BaseModel): json_data = data.model_dump()
  let json_data : Option Py := if data.isModel then some (modelDumpSelf data) else json_data
  -- if isinstance(data, list): json_data = [item.model_dump() for item in data]
  -- else: raise Exception(...)
  match data with
  | .list items => do
    let dumped ← items.mapM modelDumpItem
    let json_str ← jsonDumps (.list dumped)
    return (path, json_str)
  | _ =>
    -- the earlier json_data assignments are unreachable from here on
    let _ := json_data
    .error (.exception "Data is not a list, dict, or BaseModel")

/-! ## NY data model and helpers (`scrapers/ny.py`) -/

/-- `NYPUCAttachment` (ny.py lines 23-26). -/
structure NYPUCAttachment where
  name : String := ""
  url : String := ""
  file_name : String := ""
  deriving DecidableEq, Repr

/-- One element of an `NYPUCFiling.attachements` Python list.  The list
normally holds `NYPUCAttachment` objects, but the dedup helper's
`...attachements.append(file.attachements)` appends a whole child list as a
single element, so an element may also be a nested list. -/
inductive NYAttachmentEntry where
  | atom (a : NYPUCAttachment)
  | nested (xs : List NYAttachmentEntry)
  deriving Repr

/-- `NYPUCFiling` (ny.py lines 37-45; the source spells the field
`attachements`). -/
structure NYPUCFiling where
  attachements : List NYAttachmentEntry := []
  serial : String := ""
  date_filed : String := ""
  nypuc_doctype : String := ""
  name : String := ""
  organization : String := ""
  itemNo : String := ""
  docket_id : String := ""
  deriving Repr

/-- `NYPUCDocket` (ny.py lines 55-62). -/
structure NYPUCDocket where
  docket_id : String
  matter_type : String
  matter_subtype : String
  title : String
  organization : String
  date_filed : String
  industry_affected : String
  deriving DecidableEq, Repr

/-! ### `deduplicate_individual_attachments_into_files` (ny.py lines 183-196) -/

/-- `make_dedupe_string` (ny.py lines 188-189). -/
def make_dedupe_string (file : NYPUCFiling) : String :=
  "itemnum-" ++ file.itemNo ++ "-caseid-" ++ file.docket_id

/-- `dict.get(k)` on an insertion-ordered dict embedded as an association
list: the value at the first matching key, or `none`. -/
def pyDictGet (d : List (String × NYPUCFiling)) (k : String) : Option NYPUCFiling :=
  (d.find? (fun kv => kv.1 == k)).map Prod.snd

/-- One iteration of the dedup loop (ny.py lines 191-194): when the key is
already present, the existing entry's `attachements` list gets the current
row's whole `attachements` list appended as one element (the in-place
`append`); when the key is absent the loop body does nothing, because the
source has no branch inserting a first occurrence. -/
def dedupeStep (dict_nypuc : List (String × NYPUCFiling)) (file : NYPUCFiling) :
    List (String × NYPUCFiling) :=
  let dedupestr := make_dedupe_string file
  match pyDictGet dict_nypuc dedupestr with
  | some _ =>
    dict_nypuc.map (fun kv =>
      if kv.1 == dedupestr then
        (kv.1, { kv.2 with
          attachements := kv.2.attachements ++ [.nested file.attachements] })
      else kv)
  | none => dict_nypuc

/-- `deduplicate_individual_attachments_into_files` (ny.py lines 183-196):
fold the loop over the rows starting from an empty dict, then return
`list(dict_nypuc.values())`. -/
def deduplicate_individual_attachments_into_files (raw_files : List NYPUCFiling) :
    List NYPUCFiling :=
  ((raw_files.foldl dedupeStep []).map Prod.snd)

/-! ### `combine_dockets` (ny.py lines 65-72) -/

/-- Descending-by-parsed-date ordering on (docket, parsed date) pairs, the
sort relation realizing `sorted(..., key=..., reverse=True)`. -/
def docketKeyGe (a b : NYPUCDocket × Date) : Prop :=
  Date.leb b.2 a.2 = true

instance : DecidableRel docketKeyGe := fun a b => by
  unfold docketKeyGe; infer_instance

/-- `combine_dockets(docket_lists)` (ny.py lines 65-72): flatten all
sublists, then sort by `datetime.strptime(x.date_filed, "%m/%d/%Y")`
descending.  `sorted` evaluates the key on every element (a `ValueError`
from `strptime` propagates), then stably sorts; the embedding pairs each
docket with its parsed key and applies a stable sort. -/
def combine_dockets (docket_lists : List (List NYPUCDocket)) :
    Except PyErr (List NYPUCDocket) := do
  let all_dockets := docket_lists.flatten
  let keyed ← all_dockets.mapM (fun d => do
    let t ← strptime_mdY d.date_filed
    return (d, t))
  return (keyed.insertionSort docketKeyGe).map Prod.fst

/-! ### `extract_rows` (ny.py lines 140-180) and its BeautifulSoup model -/

/-- The part of `s` before the first occurrence of `marker` (all of `s` when
the marker is absent). -/
def takeUntil (marker s : String) : String := ((s.splitOn marker).headD s)

/-- A table cell as BeautifulSoup exposes it: its stripped text and the
first `<a>` child (link text, href), if any. -/
structure HtmlCell where
  text : String
  link : Option (String × String)
  deriving Repr, Inhabited

/-- A table row: its `<td>` cells. -/
structure HtmlRow where
  cells : List HtmlCell
  deriving Repr, Inhabited

/-- Decode one cell's inner markup: either plain text or a single
`<a href="URL">TEXT</a>` anchor. -/
def decodeCell (inner : String) : HtmlCell :=
  if inner.startsWith "<a href=\x22" then
    let rest := inner.drop 9
    let href := takeUntil "\x22" rest
    let after := (rest.splitOn "\x22>").getD 1 ""
    let atext := takeUntil "</a>" after
    { text := atext, link := some (atext, href) }
  else { text := inner, link := none }

/-- Decode `<tr>`-separated rows of `<td>`-separated cells. -/
def decodeRows (body_html : String) : List HtmlRow :=
  ((body_html.splitOn "<tr>").drop 1).map (fun row_chunk =>
    { cells := ((row_chunk.splitOn "<td>").drop 1).map
        (fun c => decodeCell (takeUntil "</td>" c)) })

/-- Model of `BeautifulSoup(html).find("table", id="tblPubDoc")`: the
markup of a table carrying that id, when the document contains one. -/
def bs4_find_tblPubDoc (table_html : String) : Option String :=
  match table_html.splitOn "<table id=\x22tblPubDoc\x22>" with
  | _ :: rest :: _ => some (takeUntil "</table>" rest)
  | _ => none

/-- `extract_rows(table_html, case)` (ny.py lines 140-180): find the
`tblPubDoc` table (no table: return `[]`), take the `<tbody>` rows (no
body: no rows), keep rows with at least 7 cells and a link in cell 3, and
build an `NYPUCFiling` per kept row.  The source passes the scraped
attachment with the keyword `attachment=`, which is not a declared field
(the field is spelled `attachements`); pydantic ignores the unknown
keyword, so the built filing keeps the default empty `attachements`.
The result then goes through the dedup helper. -/
def extract_rows (table_html : String) (case : String) : List NYPUCFiling :=
  match bs4_find_tblPubDoc table_html with
  | none => []
  | some tbl =>
    let rows :=
      match tbl.splitOn "<tbody>" with
      | _ :: b :: _ => decodeRows (takeUntil "</tbody>" b)
      | _ => []
    let filing_data := rows.filterMap (fun row =>
      if row.cells.length < 7 then none
      else
        match (row.cells.getD 3 default).link with
        | none => none
        | some _ => some {
            attachements := [],
            serial := (row.cells.getD 0 default).text,
            date_filed := (row.cells.getD 1 default).text,
            nypuc_doctype := (row.cells.getD 2 default).text,
            docket_id := case,
            organization := (row.cells.getD 4 default).text,
            itemNo := (row.cells.getD 5 default).text })
    deduplicate_individual_attachments_into_files filing_data

/-! ### `NYPUCScraper` methods (ny.py lines 199-312) -/

/-- `NYPUCScraper.filing_data_intermediate` (ny.py lines 260-262):
`{"docket_id": data.docket_id, "html": process_docket(data)}`.
`process_docket` drives a browser against the NY site; the page HTML it
returns is supplied here as the `page_html` argument. -/
def ny_filing_data_intermediate (data : NYPUCDocket) (page_html : String) : Py :=
  .dict [("docket_id", .str data.docket_id), ("html", .str page_html)]

/-- Python tuple-unpacking `a, b = d` where `d` is a dict iterates the
dict's KEYS: with exactly two entries it binds the two key strings in
insertion order; any other arity raises `ValueError`; a non-iterable
raises `TypeError`. -/
def pyUnpack2Dict (v : Py) : Except PyErr (String × String) :=
  match v with
  | .dict [(k1, _), (k2, _)] => .ok (k1, k2)
  | .dict _ => .error (.valueError "wrong number of values to unpack")
  | _ => .error (.typeError "cannot unpack non-iterable object")

/-- `NYPUCScraper.filing_data_from_intermediate` (ny.py lines 264-269):
`docket_id, html = intermediate` followed by `extract_rows(html,
docket_id)`.  The unpacking binds the dict's two KEY strings, not its
values. -/
def ny_filing_data_from_intermediate (intermediate : Py) :
    Except PyErr (List NYPUCFiling) := do
  let (docket_id, html) ← pyUnpack2Dict intermediate
  return extract_rows html docket_id

/-- `NYPUCScraper.updated_cases_since_date_intermediate` (ny.py lines
271-272): `raise Exception("Not Impelemented")` (sic). -/
def ny_updated_cases_since_date_intermediate (after_date : Date) : Except PyErr Py :=
  let _ := after_date
  .error (.exception "Not Impelemented")

/-- `NYPUCScraper.updated_cases_since_date_from_intermediate` (ny.py lines
274-277): `raise Exception("Not Impelemented")` (sic). -/
def ny_updated_cases_since_date_from_intermediate (intermediate : Py)
    (after_date : Date) : Except PyErr (List NYPUCDocket) :=
  let _ := (intermediate, after_date)
  .error (.exception "Not Impelemented")

/-! ## Attachment text-quality ranking (`pipelines/raw_attachment_handling.py`) -/

/-- Modelled from the spec: `RFC3339Time` lives in
`openpuc_scrapers/models/timestamp.py`, which is not part of the sources;
the spec describes "timestamp value objects".  It is embedded as a point
in time whose `.timestamp()` gives seconds since the Unix epoch. -/
structure RFC3339Time where
  epochSeconds : Int
  deriving DecidableEq, Repr

/-- `datetime.timestamp()` on the embedded time value. -/
def RFC3339Time.timestamp (t : RFC3339Time) : Int := t.epochSeconds

/-- `AttachmentTextQuality` (raw_attachment_handling.py lines 8-10):
`low = 0`, `high = 1`. -/
inductive AttachmentTextQuality where
  | low
  | high
  deriving DecidableEq, Repr

/-- The enum's `.value`. -/
def AttachmentTextQuality.value : AttachmentTextQuality → Nat
  | .low => 0
  | .high => 1

/-- `RawAttachmentText` (raw_attachment_handling.py lines 13-17): fields
`quality`, `language`, `text`, `timestamp`. -/
structure RawAttachmentText where
  quality : AttachmentTextQuality
  language : String
  text : String
  timestamp : RFC3339Time
  deriving DecidableEq, Repr

/-- `RawAttachment` (raw_attachment_handling.py lines 20-24). -/
structure RawAttachment where
  hash : String
  name : String
  extension : String
  text_objects : List RawAttachmentText
  deriving DecidableEq, Repr

/-- Python attribute lookup of a datetime-valued attribute on a
`RawAttachmentText` instance: the class declares exactly the fields
`quality`, `language`, `text` and `timestamp`, of which `timestamp` is the
datetime-valued one; looking up any other name raises `AttributeError`. -/
def rawAttachmentTextGetattrTime (att : RawAttachmentText) (attr : String) :
    Except PyErr RFC3339Time :=
  if attr = "timestamp" then .ok att.timestamp
  else .error (.attributeError attr)

/-- `attach_ranker(att)` (raw_attachment_handling.py lines 28-31):
`att.quality.value + att.time.timestamp() / (2**32)`.  The source reads
the attribute `time`, so the lookup is embedded as such. -/
def attach_ranker (att : RawAttachmentText) : Except PyErr ℚ := do
  let t ← rawAttachmentTextGetattrTime att "time"
  let timestamp_value : ℚ := (t.timestamp : ℚ) / (2 ^ 32 : ℚ)
  return (att.quality.value : ℚ) + timestamp_value

/-- The loop of Python's `max(xs, key=f)` once a current best is fixed:
the key is evaluated left to right on each remaining element (exceptions
propagate) and a strictly greater key replaces the best, so ties keep the
earliest element. -/
def pythonMaxGo (f : RawAttachmentText → Except PyErr ℚ) (best : RawAttachmentText)
    (bestKey : ℚ) : List RawAttachmentText → Except PyErr RawAttachmentText
  | [] => .ok best
  | x :: xs => do
    let k ← f x
    if bestKey < k then pythonMaxGo f x k xs else pythonMaxGo f best bestKey xs

/-- Python's `max(xs, key=f)`: `ValueError` on an empty sequence,
otherwise the first element attaining the maximal key. -/
def pythonMax (f : RawAttachmentText → Except PyErr ℚ) :
    List RawAttachmentText → Except PyErr RawAttachmentText
  | [] => .error (.valueError "max() arg is an empty sequence")
  | x :: xs => do
    let k ← f x
    pythonMaxGo f x k xs

/-- `get_highest_quality_text(attach)` (raw_attachment_handling.py lines
27-34): `max(attach.text_objects, key=attach_ranker).text`. -/
def get_highest_quality_text (attach : RawAttachment) : Except PyErr String := do
  let best_attachment_text ← pythonMax attach_ranker attach.text_objects
  return best_attachment_text.text

/-! ## Generic data model (`models/attachment.py`; `models/case.py` and
`models/filing.py` are not part of the sources and are modelled from the
spec) -/

/-- `GenericAttachment` (attachment.py lines 7-12); `HttpUrl` and
`Blake2bHash` are embedded as strings. -/
structure GenericAttachment where
  name : String
  url : String
  document_type : Option String := none
  extra_metadata : List (String × Py) := []
  hash : Option String := none

/-- Modelled from the spec: `GenericCase` lives in
`openpuc_scrapers/models/case.py`, which is not part of the sources.  The
spec's data model gives case_number (unique business key), case_type,
description, industry, petitioner (optional), opened_date (timestamp) and
an open string-keyed extra_metadata map. -/
structure GenericCase where
  case_number : String
  case_type : String
  description : String
  industry : String
  petitioner : Option String := none
  opened_date : RFC3339Time
  extra_metadata : List (String × Py) := []

/-- Modelled from the spec: `GenericFiling` lives in
`openpuc_scrapers/models/filing.py`, which is not part of the sources.
The spec's data model gives party_name, filed_date, filing_type,
description, an ordered attachments list and extra_metadata. -/
structure GenericFiling where
  party_name : String
  filed_date : RFC3339Time
  filing_type : String
  description : String
  attachments : List GenericAttachment := []
  extra_metadata : List (String × Py) := []

/-- Days in the years before year `y` (proleptic Gregorian). -/
def daysBeforeYear (y : Nat) : Nat :=
  let py := y - 1
  365 * py + py / 4 - py / 100 + py / 400

/-- Days in the months of year `y` before month `m`. -/
def daysBeforeMonth (y m : Nat) : Nat :=
  (((List.range (m - 1)).map (fun i => daysInMonth y (i + 1))).sum)

/-- Python `date.toordinal()`: day count with 0001-01-01 as day 1. -/
def dateToOrdinal (d : Date) : Nat :=
  daysBeforeYear d.year + daysBeforeMonth d.year d.month + d.day

/-- Modelled from the spec: `date_to_rfctime` lives in
`openpuc_scrapers/models/timestamp.py`, which is not part of the sources;
it turns a calendar date into the timestamp value object (midnight UTC;
719163 is the ordinal of 1970-01-01). -/
def date_to_rfctime (d : Date) : RFC3339Time :=
  { epochSeconds := ((dateToOrdinal d : Int) - 719163) * 86400 }

/-! ## Dummy scraper (`scrapers/dummy.py`) -/

/-- `DummyAttachment` (dummy.py lines 16-20). -/
structure DummyAttachment where
  document_title : String
  url : String
  file_format : String := "pdf"
  document_type : String := "filing"
  deriving DecidableEq, Repr

/-- `DummyFilingData` (dummy.py lines 23-29). -/
structure DummyFilingData where
  filing_id : String
  case_number : String
  date_filed : Date
  description : String
  attachments : List DummyAttachment := []
  filing_type : String := "test_filing"
  deriving DecidableEq, Repr

/-- `DummyCaseData` (dummy.py lines 32-37). -/
structure DummyCaseData where
  case_number : String
  description : String
  opened_date : Date
  status : String := "open"
  industry : String := "utilities"
  deriving DecidableEq, Repr

/-- `model_dump()` of a `DummyAttachment`. -/
def dumpDummyAttachment (a : DummyAttachment) : List (String × Py) :=
  [("document_title", .str a.document_title), ("url", .str a.url),
   ("file_format", .str a.file_format), ("document_type", .str a.document_type)]

/-- `model_dump()` of a `DummyFilingData` (dates stay date objects). -/
def dumpDummyFiling (f : DummyFilingData) : List (String × Py) :=
  [("filing_id", .str f.filing_id), ("case_number", .str f.case_number),
   ("date_filed", .date f.date_filed), ("description", .str f.description),
   ("attachments", .list (f.attachments.map (fun a => .dict (dumpDummyAttachment a)))),
   ("filing_type", .str f.filing_type)]

/-- `model_dump()` of a `DummyCaseData` (dates stay date objects). -/
def dumpDummyCase (c : DummyCaseData) : List (String × Py) :=
  [("case_number", .str c.case_number), ("description", .str c.description),
   ("opened_date", .date c.opened_date), ("status", .str c.status),
   ("industry", .str c.industry)]

/-- Look up a key in an embedded dict's entry list. -/
def pyLookup (entries : List (String × Py)) (k : String) : Option Py :=
  ((entries.find? (fun kv => kv.1 == k)).map Prod.snd)

/-- `d[k]` on an embedded Python value: `KeyError` when the key is
missing, `TypeError` when `d` is not a dict. -/
def pySubscript (v : Py) (k : String) : Except PyErr Py :=
  match v with
  | .dict entries =>
    match pyLookup entries k with
    | some x => .ok x
    | none => .error (.keyError k)
  | _ => .error (.typeError "object is not subscriptable")

/-- Iterate an embedded value as a Python list (`TypeError` otherwise). -/
def pyAsList (v : Py) : Except PyErr (List Py) :=
  match v with
  | .list items => .ok items
  | _ => .error (.typeError "object is not iterable")

/-- pydantic validation of a required `str` field. -/
def validateStr (entries : List (String × Py)) (k : String) : Except PyErr String :=
  match pyLookup entries k with
  | some (.str s) => .ok s
  | some _ => .error (.validationError (k ++ ": string required"))
  | none => .error (.validationError (k ++ ": field required"))

/-- pydantic validation of an optional `str` field with a default. -/
def validateStrD (entries : List (String × Py)) (k : String) (dflt : String) :
    Except PyErr String :=
  match pyLookup entries k with
  | some (.str s) => .ok s
  | some _ => .error (.validationError (k ++ ": string required"))
  | none => .ok dflt

/-- pydantic validation of a required `date` field (the values produced in
this development are always date objects). -/
def validateDate (entries : List (String × Py)) (k : String) : Except PyErr Date :=
  match pyLookup entries k with
  | some (.date d) => .ok d
  | some _ => .error (.validationError (k ++ ": date required"))
  | none => .error (.validationError (k ++ ": field required"))

/-- `DummyCaseData(**c)`: pydantic validation of the field mapping
(extra keys are ignored, absent fields with defaults take them). -/
def parseDummyCase (v : Py) : Except PyErr DummyCaseData :=
  match v with
  | .dict entries => do
    let case_number ← validateStr entries "case_number"
    let description ← validateStr entries "description"
    let opened_date ← validateDate entries "opened_date"
    let status ← validateStrD entries "status" "open"
    let industry ← validateStrD entries "industry" "utilities"
    return { case_number, description, opened_date, status, industry }
  | _ => .error (.typeError "argument after ** must be a mapping")

/-- `DummyAttachment(**a)`: pydantic validation (`HttpUrl` accepts the
http/https URLs used here). -/
def parseDummyAttachment (v : Py) : Except PyErr DummyAttachment :=
  match v with
  | .dict entries => do
    let document_title ← validateStr entries "document_title"
    let url ← validateStr entries "url"
    if "http".isPrefixOf url then
      let file_format ← validateStrD entries "file_format" "pdf"
      let document_type ← validateStrD entries "document_type" "filing"
      return { document_title, url, file_format, document_type }
    else .error (.validationError "url: URL scheme not permitted")
  | _ => .error (.typeError "argument after ** must be a mapping")

/-- `DummyFilingData(**f)`: pydantic validation. -/
def parseDummyFiling (v : Py) : Except PyErr DummyFilingData :=
  match v with
  | .dict entries => do
    let filing_id ← validateStr entries "filing_id"
    let case_number ← validateStr entries "case_number"
    let date_filed ← validateDate entries "date_filed"
    let description ← validateStr entries "description"
    let attachments ←
      match pyLookup entries "attachments" with
      | some x => do
        let items ← pyAsList x
        items.mapM parseDummyAttachment
      | none => .ok []
    let filing_type ← validateStrD entries "filing_type" "test_filing"
    return { filing_id, case_number, date_filed, description, attachments, filing_type }
  | _ => .error (.typeError "argument after ** must be a mapping")

/-- `DummyScraper.universal_caselist_intermediate` (dummy.py lines 65-66):
`{"cases": [case.model_dump() for 10 generated cases]}`.  The generator
draws cases from `faker`/`randint`; the generated cases are supplied as
the `cases` parameter. -/
def dummy_universal_caselist_intermediate (cases : List DummyCaseData) : Py :=
  .dict [("cases", .list (cases.map (fun c => .dict (dumpDummyCase c))))]

/-- `DummyScraper.universal_caselist_from_intermediate` (dummy.py lines
68-71): `[DummyCaseData(**c) for c in intermediate["cases"]]`. -/
def dummy_universal_caselist_from_intermediate (intermediate : Py) :
    Except PyErr (List DummyCaseData) := do
  let cs ← pySubscript intermediate "cases"
  let items ← pyAsList cs
  items.mapM parseDummyCase

/-- `DummyScraper.filing_data_intermediate` (dummy.py lines 73-80):
`{"case": data.model_dump(), "filings": [...model_dump()...]}` over 1-5
generated filings, supplied as the `filings` parameter. -/
def dummy_filing_data_intermediate (data : DummyCaseData)
    (filings : List DummyFilingData) : Py :=
  .dict [("case", .dict (dumpDummyCase data)),
         ("filings", .list (filings.map (fun f => .dict (dumpDummyFiling f))))]

/-- `DummyScraper.filing_data_from_intermediate` (dummy.py lines 82-85):
`[DummyFilingData(**f) for f in intermediate["filings"]]`. -/
def dummy_filing_data_from_intermediate (intermediate : Py) :
    Except PyErr (List DummyFilingData) := do
  let fs ← pySubscript intermediate "filings"
  let items ← pyAsList fs
  items.mapM parseDummyFiling

/-- `DummyScraper.updated_cases_since_date_intermediate` (dummy.py lines
87-88): returns `self.universal_caselist_intermediate()` unchanged (no
date filtering at acquisition). -/
def dummy_updated_cases_since_date_intermediate (cases : List DummyCaseData)
    (after_date : Date) : Py :=
  let _ := after_date
  dummy_universal_caselist_intermediate cases

/-- `DummyScraper.updated_cases_since_date_from_intermediate` (dummy.py
lines 90-97): keep the parsed cases with `c.opened_date > after_date`. -/
def dummy_updated_cases_since_date_from_intermediate (intermediate : Py)
    (after_date : Date) : Except PyErr (List DummyCaseData) := do
  let cs ← dummy_universal_caselist_from_intermediate intermediate
  return cs.filter (fun c => Date.ltb after_date c.opened_date)

/-- `DummyScraper.into_generic_case_data` (dummy.py lines 99-107). -/
def dummy_into_generic_case_data (state_data : DummyCaseData) : GenericCase :=
  { case_number := state_data.case_number
    case_type := "dummy_case"
    description := state_data.description
    industry := state_data.industry
    opened_date := date_to_rfctime state_data.opened_date
    extra_metadata := [("status", .str state_data.status)] }

/-- `DummyScraper.into_generic_filing_data` (dummy.py lines 109-120). -/
def dummy_into_generic_filing_data (state_data : DummyFilingData) : GenericFiling :=
  { party_name := ""
    filed_date := date_to_rfctime state_data.date_filed
    filing_type := state_data.filing_type
    description := state_data.description
    attachments := state_data.attachments.map (fun a =>
      { name := a.document_title, url := a.url })
    extra_metadata := [("filing_id", .str state_data.filing_id)] }

/-! ## The processing pipeline (`models/generic_scraper.py`, lines 144-177) -/

/-- The scraper operations `process_cases` invokes, one record per
`GenericScraper` implementation, together with the `model_dump()` of each
state-specific type (used when the pipeline saves those objects). -/
structure ScraperImpl (C F : Type) where
  dumpCase : C → List (String × Py)
  dumpFiling : F → List (String × Py)
  filing_data_intermediate : C → Except PyErr Py
  filing_data_from_intermediate : Py → Except PyErr (List F)
  into_generic_case_data : C → GenericCase
  into_generic_filing_data : F → GenericFiling

/-- The path of the raw filing intermediate save
(`models/generic_scraper.py` line 161). -/
def filings_intermediate_save_path (base_path case_num : String) : String :=
  base_path ++ "/filings/case_" ++ case_num ++ ".json"

/-- The path of the parsed filing list save
(`models/generic_scraper.py` line 165). -/
def filings_parsed_save_path (base_path case_num : String) : String :=
  base_path ++ "/filings/case_" ++ case_num ++ ".json"

/-- The per-case loop of `process_cases` (generic_scraper.py lines
151-175).  The first component is the accumulated generic output (or the
first uncaught exception); the second is the log of completed disk writes
as `(path, content)` pairs, preserved when a later step raises. -/
def process_cases_go {C F : Type} (s : ScraperImpl C F) (base_path : String) :
    List C → List GenericFiling → List (String × String) →
    Except PyErr (List GenericFiling) × List (String × String)
  | [], all_generic_cases, log => (.ok all_generic_cases, log)
  | case :: rest, all_generic_cases, log =>
    let generic_case := s.into_generic_case_data case
    let case_num := generic_case.case_number
    -- save_json(f"{base_path}/cases/case_{case_num}.json", case)
    let case_path := base_path ++ "/cases/case_" ++ case_num ++ ".json"
    match save_json case_path (.model (s.dumpCase case)) with
    | .error e => (.error e, log)
    | .ok w1 =>
      match s.filing_data_intermediate case with
      | .error e => (.error e, log ++ [w1])
      | .ok filings_intermediate =>
        match save_json (filings_intermediate_save_path base_path case_num)
            filings_intermediate with
        | .error e => (.error e, log ++ [w1])
        | .ok w2 =>
          match s.filing_data_from_intermediate filings_intermediate with
          | .error e => (.error e, log ++ [w1, w2])
          | .ok filings =>
            match save_json (filings_parsed_save_path base_path case_num)
                (.list (filings.map (fun f => .model (s.dumpFiling f)))) with
            | .error e => (.error e, log ++ [w1, w2])
            | .ok w3 =>
              -- line 169 rebinds `generic_case` to the bound method object;
              -- the binding is never used again
              let case_specific_generic_cases := filings.map s.into_generic_filing_data
              process_cases_go s base_path rest
                (all_generic_cases ++ case_specific_generic_cases)
                (log ++ [w1, w2, w3])

/-- `process_cases(scraper, cases, base_path)` (generic_scraper.py lines
144-177): run the per-case loop, returning the accumulated output (note:
the accumulated records are the converted FILINGS, despite the
`List[GenericCaseData]` annotation in the source) together with the
write log. -/
def process_cases {C F : Type} (s : ScraperImpl C F) (cases : List C)
    (base_path : String) :
    Except PyErr (List GenericFiling) × List (String × String) :=
  process_cases_go s base_path cases [] []

/-- The `ScraperImpl` record of `DummyScraper`, with the randomness of
`_generate_dummy_filing` fixed by the `filingsFor` parameter. -/
def mkDummyScraper (filingsFor : DummyCaseData → List DummyFilingData) :
    ScraperImpl DummyCaseData DummyFilingData :=
  { dumpCase := dumpDummyCase
    dumpFiling := dumpDummyFiling
    filing_data_intermediate := fun c =>
      .ok (dummy_filing_data_intermediate c (filingsFor c))
    filing_data_from_intermediate := dummy_filing_data_from_intermediate
    into_generic_case_data := dummy_into_generic_case_data
    into_generic_filing_data := dummy_into_generic_filing_data }

/-! ## Helper lemmas -/

/-- The dedup loop body leaves an empty merge dict empty: the only branch
mutates an existing entry, and no branch inserts one. -/
theorem dedupeStep_nil (file : NYPUCFiling) : dedupeStep [] file = [] := rfl

/-- The dedup merge dict stays empty over the whole fold. -/
theorem foldl_dedupeStep_nil (raw_files : List NYPUCFiling) :
    raw_files.foldl dedupeStep [] = [] := by
  induction raw_files with
  | nil => rfl
  | cons f fs ih => simpa [List.foldl_cons, dedupeStep_nil] using ih

/-- `deduplicate_individual_attachments_into_files` returns the empty list
on every input: first occurrences of a key are never inserted into the
merge dict, so `dict_nypuc` is empty when its values are collected. -/
theorem dedupe_eq_nil (raw_files : List NYPUCFiling) :
    deduplicate_individual_attachments_into_files raw_files = [] := by
  unfold deduplicate_individual_attachments_into_files
  rw [foldl_dedupeStep_nil]
  rfl

/-- `extract_rows` always returns the empty list, because its result is
passed through the dedup helper. -/
theorem extract_rows_eq_nil (table_html case : String) :
    extract_rows table_html case = [] := by
  unfold extract_rows
  cases bs4_find_tblPubDoc table_html with
  | none => rfl
  | some tbl => simp [dedupe_eq_nil]

/-! ## Claim theorems -/

/-- Claim C1: the spec says a bare dict, a single `BaseModel` and a list of
models each serialize without error in `save_json`, any other input (e.g. a
number) raises, and dispatch picks exactly one variant.  Evaluating the
code: the dict and single-model inputs ALSO raise (the `else` of the final
non-exclusive `if isinstance(data, list)` fires for every non-list input),
and only the list input succeeds. -/
theorem save_json_dispatch_eval :
    save_json "data/x.json" (.dict [("k", .str "v")]) =
      .error (.exception "Data is not a list, dict, or BaseModel")
  ∧ save_json "data/x.json" (.model [("k", .str "v")]) =
      .error (.exception "Data is not a list, dict, or BaseModel")
  ∧ save_json "data/x.json" (.int 7) =
      .error (.exception "Data is not a list, dict, or BaseModel")
  ∧ save_json "data/x.json" (.list [.model [("k", .str "v")]]) =
      .ok ("data/x.json", "[\x7b\x22k\x22: \x22v\x22\x7d]") :=
  ⟨rfl, rfl, rfl, rfl⟩

/-- The two rows of the spec's dedup example: item number `12`, docket
`D1`, carrying attachments `A` and `B` respectively. -/
def dedupeExampleRowA : NYPUCFiling :=
  { attachements := [.atom { name := "A", url := "https://e.x/a.pdf" }],
    itemNo := "12", docket_id := "D1" }

/-- Second row of the spec's dedup example. -/
def dedupeExampleRowB : NYPUCFiling :=
  { attachements := [.atom { name := "B", url := "https://e.x/b.pdf" }],
    itemNo := "12", docket_id := "D1" }

/-- Claim C2: the spec says deduplicating two rows that share item number
`12` and docket `D1` (attachments `A` and `B`) produces exactly one record
for that key whose attachment list holds both `A` and `B`.  Evaluating the
code: the result is the empty list — rows whose key is not already present
are never inserted into the merge dict, so nothing ever is. -/
theorem dedupe_spec_example_eval :
    deduplicate_individual_attachments_into_files
      [dedupeExampleRowA, dedupeExampleRowB] = [] := rfl

/-- Claim C7: deduplicating an already-deduplicated filing list returns
the same list.  This holds — degenerately, because the dedup operation
returns the empty list on every input and on the empty list in
particular. -/
theorem dedupe_idempotent (raw_files : List NYPUCFiling) :
    deduplicate_individual_attachments_into_files
      (deduplicate_individual_attachments_into_files raw_files) =
    deduplicate_individual_attachments_into_files raw_files := by
  rw [dedupe_eq_nil, dedupe_eq_nil]

/-- Claim C3: the round-trip law says `parse(produce())` must reconstruct
the typed objects a produced intermediate encodes.  Evaluating the NY
filing pair: whatever docket is scraped and whatever page HTML
`process_docket` returns, `filing_data_from_intermediate` yields `.ok []`
— the dict unpacking binds the literal key strings `"docket_id"` and
`"html"` instead of the values, so the page content is never parsed (and
the final dedup pass drops every row anyway). -/
theorem ny_filing_roundtrip_eval (d : NYPUCDocket) (page_html : String) :
    ny_filing_data_from_intermediate (ny_filing_data_intermediate d page_html) =
      .ok ([] : List NYPUCFiling) := by
  show Except.ok (extract_rows "html" "docket_id") = _
  rw [extract_rows_eq_nil]

/-- The three text variants of the spec's ranking example:
(quality=low, t=100), (quality=high, t=1), (quality=high, t=1000). -/
def rankingExampleAttachment : RawAttachment :=
  { hash := "h", name := "n", extension := "pdf",
    text_objects :=
      [{ quality := .low, language := "en", text := "low-text", timestamp := ⟨100⟩ },
       { quality := .high, language := "en", text := "high-early", timestamp := ⟨1⟩ },
       { quality := .high, language := "en", text := "high-late", timestamp := ⟨1000⟩ }] }

/-- Claim C4: the spec says the ranking selects the variant with
quality=high and t=1000 among the three example variants.  Evaluating the
code: it raises `AttributeError` — the ranking key reads `att.time`, but
the model's field is named `timestamp`, so no comparison ever happens. -/
theorem ranking_spec_example_eval :
    get_highest_quality_text rankingExampleAttachment =
      .error (.attributeError "time") := rfl

/-- Claim C9: the claim says an empty variant list makes
`get_highest_quality_text` fail (max of an empty sequence) and a
non-empty list makes it return the text of one of the variants.
Evaluating the code: the empty case indeed raises `ValueError`, but the
non-empty case raises `AttributeError` (the ranking key reads the
nonexistent attribute `time`), so the function never returns a string. -/
theorem get_highest_quality_text_always_errors (attach : RawAttachment) :
    get_highest_quality_text attach =
      .error (if attach.text_objects.isEmpty then
                .valueError "max() arg is an empty sequence"
              else .attributeError "time") := by
  cases h : attach.text_objects with
  | nil => simp [get_highest_quality_text, pythonMax, h]
  | cons x xs =>
    simp only [get_highest_quality_text, pythonMax, h, List.isEmpty_cons]
    rfl

/-- Claim C5: for any cutoff date, the dummy scraper's updated-since-date
parse returns exactly the cases of the parsed case list whose
`opened_date` is strictly after the cutoff, and both NY updated-since-date
operations raise an unimplemented-capability error instead of returning an
empty result. -/
theorem updated_since_date_spec :
    (∀ (intermediate : Py) (after_date : Date) (cases : List DummyCaseData),
      dummy_universal_caselist_from_intermediate intermediate = .ok cases →
      dummy_updated_cases_since_date_from_intermediate intermediate after_date =
        .ok (cases.filter (fun c => Date.ltb after_date c.opened_date)))
  ∧ (∀ after_date, ny_updated_cases_since_date_intermediate after_date =
      .error (.exception "Not Impelemented"))
  ∧ (∀ intermediate after_date,
      ny_updated_cases_since_date_from_intermediate intermediate after_date =
        .error (.exception "Not Impelemented")) := by
  refine ⟨?_, fun _ => rfl, fun _ _ => rfl⟩
  intro intermediate after_date cases h
  unfold dummy_updated_cases_since_date_from_intermediate
  rw [h]
  rfl

/-- A case opened before the witness cutoff. -/
def updatedSinceWitnessCase1 : DummyCaseData :=
  { case_number := "DUMMY-1001", description := "early case",
    opened_date := { year := 2024, month := 1, day := 10 } }

/-- A case opened after the witness cutoff. -/
def updatedSinceWitnessCase2 : DummyCaseData :=
  { case_number := "DUMMY-1002", description := "late case",
    opened_date := { year := 2024, month := 6, day := 10 } }

/-- Witness for C5: on a concrete two-case intermediate with cutoff
2024-03-01, the filter keeps exactly the case opened 2024-06-10. -/
theorem updated_since_date_spec_witness :
    dummy_universal_caselist_from_intermediate
      (dummy_universal_caselist_intermediate
        [updatedSinceWitnessCase1, updatedSinceWitnessCase2]) =
      .ok [updatedSinceWitnessCase1, updatedSinceWitnessCase2]
  ∧ dummy_updated_cases_since_date_from_intermediate
      (dummy_universal_caselist_intermediate
        [updatedSinceWitnessCase1, updatedSinceWitnessCase2])
      { year := 2024, month := 3, day := 1 } =
      .ok ([updatedSinceWitnessCase1, updatedSinceWitnessCase2].filter
        (fun c => Date.ltb { year := 2024, month := 3, day := 1 } c.opened_date))
  ∧ [updatedSinceWitnessCase1, updatedSinceWitnessCase2].filter
      (fun c => Date.ltb { year := 2024, month := 3, day := 1 } c.opened_date) =
      [updatedSinceWitnessCase2] :=
  ⟨rfl, updated_since_date_spec.1 _ _ _ rfl, rfl⟩

/-- The 10 synthetic cases of the end-to-end scenario. -/
def syntheticCases : List DummyCaseData :=
  (List.range 10).map (fun i =>
    { case_number := "DUMMY-" ++ toString (1000 + i)
      description := "synthetic case"
      opened_date := { year := 2024, month := 1, day := 1 + i } })

/-- 1-5 synthetic filings per case (the count cycles through 1..5 with the
case's opened day). -/
def syntheticFilingsFor (c : DummyCaseData) : List DummyFilingData :=
  (List.range (1 + c.opened_date.day % 5)).map (fun i =>
    { filing_id := "FILING-" ++ c.case_number ++ "-" ++ toString i
      case_number := c.case_number
      date_filed := { year := 2024, month := 2, day := 1 + i }
      description := "synthetic filing"
      attachments := [{ document_title := "doc"
                        url := "https://dummy.com/docs/1.pdf" }] })

/-- Claim C6: the spec's end-to-end scenario says running 10 synthetic
cases with 1-5 filings each through the pipeline yields a generic-filing
list whose length is the sum of the per-case filing counts.  Evaluating
the code: the run aborts on the very first case with
`Exception("Data is not a list, dict, or BaseModel")` — `process_cases`
passes the state case object (a `BaseModel`) to `save_json`, which
rejects every non-list input — and nothing is ever written or returned. -/
theorem synthetic_pipeline_eval :
    process_cases (mkDummyScraper syntheticFilingsFor) syntheticCases
      "data/20250101_000000" =
      (.error (.exception "Data is not a list, dict, or BaseModel"), []) := rfl

/-- The single case of the C8 counterexample run. -/
def overwriteExampleCase : DummyCaseData :=
  { case_number := "DUMMY-2000", description := "overwrite scenario case",
    opened_date := { year := 2024, month := 4, day := 2 } }

/-- The filings the C8 counterexample scraper produces for its case. -/
def overwriteExampleFilingsFor (c : DummyCaseData) : List DummyFilingData :=
  [{ filing_id := "FILING-9", case_number := c.case_number
     date_filed := { year := 2024, month := 5, day := 6 }
     description := "overwrite scenario filing" }]

/-- Counterexample to claim C8: the claim says the raw filing intermediate
and the parsed filing list are both written (the parsed form overwriting
the raw one).  Running the per-case pipeline on a concrete case, the write
log stays empty — the step aborts inside the first `save_json` call — so
neither form is ever written. -/
theorem filings_path_overwrite_counterexample :
    (process_cases (mkDummyScraper overwriteExampleFilingsFor)
      [overwriteExampleCase] "data/20250101_000000").2 = []
  ∧ (process_cases (mkDummyScraper overwriteExampleFilingsFor)
      [overwriteExampleCase] "data/20250101_000000").1 =
      .error (.exception "Data is not a list, dict, or BaseModel") :=
  ⟨rfl, rfl⟩

/-- Claim C8 as amended: the raw-intermediate save and the parsed-filings
save do pass the identical path string
`<base_path>/filings/case_<case_number>.json`, but no overwrite (and no
write at all) happens: for every scraper implementation and every
non-empty case list, the per-case step fails in its first `save_json`
call with the write log still empty. -/
theorem filings_paths_equal_but_nothing_written :
    (∀ base_path case_num, filings_intermediate_save_path base_path case_num =
      filings_parsed_save_path base_path case_num)
  ∧ (∀ (C F : Type) (s : ScraperImpl C F) (c : C) (rest : List C)
      (base_path : String),
      process_cases s (c :: rest) base_path =
        (.error (.exception "Data is not a list, dict, or BaseModel"), [])) :=
  ⟨fun _ _ => rfl, fun _ _ _ _ _ _ => rfl⟩

/-- The parsed `date_filed` of a docket, defaulting to the epoch when the
string does not parse (only used under hypotheses that rule that out). -/
def forceParsedDate (d : NYPUCDocket) : Date :=
  match strptime_mdY d.date_filed with
  | .ok t => t
  | .error _ => { year := 1970, month := 1, day := 1 }

/-- Chronological order on dates is total. -/
theorem Date.leb_total (a b : Date) : a.leb b = true ∨ b.leb a = true := by
  simp only [Date.leb, decide_eq_true_eq]
  omega

/-- Chronological order on dates is transitive. -/
theorem Date.leb_trans {a b c : Date} (h1 : a.leb b = true) (h2 : b.leb c = true) :
    a.leb c = true := by
  simp only [Date.leb, decide_eq_true_eq] at h1 h2 ⊢
  omega

instance : IsTotal (NYPUCDocket × Date) docketKeyGe :=
  ⟨fun a b => (Date.leb_total b.2 a.2).elim Or.inl Or.inr⟩

instance : IsTrans (NYPUCDocket × Date) docketKeyGe :=
  ⟨fun _ _ _ h1 h2 => Date.leb_trans h2 h1⟩

/-- Pairing each docket with its parsed date succeeds when every
`date_filed` parses. -/
theorem mapM_strptime_ok (l : List NYPUCDocket)
    (h : ∀ d ∈ l, (strptime_mdY d.date_filed).isOk = true) :
    (l.mapM (fun d => do
      let t ← strptime_mdY d.date_filed
      return (d, t)) : Except PyErr (List (NYPUCDocket × Date))) =
      .ok (l.map (fun d => (d, forceParsedDate d))) := by
  induction l with
  | nil => rfl
  | cons x xs ih =>
    have hx := h x (List.mem_cons_self x xs)
    obtain ⟨t, ht⟩ : ∃ t, strptime_mdY x.date_filed = .ok t := by
      cases heq : strptime_mdY x.date_filed with
      | ok t => exact ⟨t, rfl⟩
      | error e => rw [heq] at hx; simp [Except.isOk, Except.toBool] at hx
    rw [List.mapM_cons, ht, ih (fun d hd => h d (List.mem_cons_of_mem x hd))]
    simp only [List.map_cons, forceParsedDate, ht]
    rfl

/-- Claim C10: when every `date_filed` in the input parses in the
`%m/%d/%Y` format, `combine_dockets` succeeds with exactly the multiset
union of the sublists (a permutation of the flattened input, with length
the sum of the sublist lengths) ordered by parsed filing date in
descending order. -/
theorem combine_dockets_spec (docket_lists : List (List NYPUCDocket))
    (h : ∀ d ∈ docket_lists.flatten, (strptime_mdY d.date_filed).isOk = true) :
    ∃ out, combine_dockets docket_lists = .ok out
      ∧ out.Perm docket_lists.flatten
      ∧ out.length = (docket_lists.map List.length).sum
      ∧ out.Pairwise (fun a b =>
          Date.leb (forceParsedDate b) (forceParsedDate a) = true) := by
  have hmap := mapM_strptime_ok docket_lists.flatten h
  have hfst : ∀ (l : List NYPUCDocket),
      (l.map (fun d => (d, forceParsedDate d))).map Prod.fst = l := by
    intro l
    induction l with
    | nil => rfl
    | cons a as ih =>
      simp only [List.map_cons]
      rw [ih]
  have hperm := (List.perm_insertionSort docketKeyGe
    (docket_lists.flatten.map (fun d => (d, forceParsedDate d)))).map Prod.fst
  rw [hfst docket_lists.flatten] at hperm
  refine ⟨((docket_lists.flatten.map (fun d => (d, forceParsedDate d))).insertionSort
    docketKeyGe).map Prod.fst, ?_, hperm, ?_, ?_⟩
  · simp only [combine_dockets]
    rw [hmap]
    rfl
  · exact hperm.length_eq.trans (by simp)
  · have hsorted := List.sorted_insertionSort docketKeyGe
      (docket_lists.flatten.map (fun d => (d, forceParsedDate d)))
    have hmem : ∀ p ∈ (docket_lists.flatten.map
        (fun d => (d, forceParsedDate d))).insertionSort docketKeyGe,
        p.2 = forceParsedDate p.1 := by
      intro p hp
      rw [List.mem_insertionSort] at hp
      obtain ⟨d, _, rfl⟩ := List.mem_map.mp hp
      rfl
    rw [List.pairwise_map]
    refine hsorted.imp_of_mem ?_
    intro a b ha hb hab
    rw [← hmem a ha, ← hmem b hb]
    exact hab

/-- A docket of the C10 witness. -/
def combineWitnessDocket (i dts : String) : NYPUCDocket :=
  { docket_id := i, matter_type := "Complaint", matter_subtype := "Appeal",
    title := "T", organization := "O", date_filed := dts,
    industry_affected := "Electric" }

/-- The concrete sublists of the C10 witness. -/
def combineWitnessLists : List (List NYPUCDocket) :=
  [[combineWitnessDocket "24-C-0001" "01/02/2024",
    combineWitnessDocket "23-C-0002" "03/04/2023"],
   [combineWitnessDocket "24-C-0003" "12/31/2024"]]

/-- Witness for C10: the hypothesis holds and the conclusion follows at a
concrete three-docket input spread over two sublists. -/
theorem combine_dockets_spec_witness :
    (∀ d ∈ combineWitnessLists.flatten, (strptime_mdY d.date_filed).isOk = true)
  ∧ ∃ out, combine_dockets combineWitnessLists = .ok out
      ∧ out.Perm combineWitnessLists.flatten
      ∧ out.length = (combineWitnessLists.map List.length).sum
      ∧ out.Pairwise (fun a b =>
          Date.leb (forceParsedDate b) (forceParsedDate a) = true) :=
  ⟨by decide, combine_dockets_spec combineWitnessLists (by decide)⟩
